import Mathlib

/-!
Verification of the docker-discord-alerts monitor (`src/main.py`) against its
specification.  The single source file defines a `DockerMonitor` class with
three operations relevant here:

* `send_discord_embed` — the delivery client: a retry loop posting a JSON
  embed to a Discord webhook, returning `True` on an HTTP 204 acknowledgement
  and `False` once the attempt budget is exhausted;
* `get_container_status` — the status enricher: a point lookup of container
  attributes, degrading to all-"unknown" / all-"error" sentinel dictionaries
  on lookup failure;
* `monitor_events` — the event loop: filtering, enrichment, formatting and
  delivery of container lifecycle events.

The embedding below translates these functions directly.  External behaviour
(the webhook's response per attempt, the container lookup outcome, the wall
clock) is passed in as explicit oracles; Python dictionary accesses that can
raise `KeyError` are modelled with `Option` fields and an `Except` result
carrying the missing key's name.
-/

/-- Outcome of one HTTP POST attempt against the webhook: either a response
with some status code, or a transport-level failure
(`requests.exceptions.RequestException`). -/
inductive AttemptOutcome : Type
  | response (code : Nat)
  | transportError
deriving DecidableEq, Repr

/-- The configuration fields of `DockerMonitor.__init__` that the core logic
reads (`monitored_containers`, `notification_level` — already lower-cased at
startup —, `max_retries`, `retry_delay`).  The webhook URL and health-check
interval are not consumed by the modelled logic. -/
structure DockerMonitorConfig : Type where
  monitored_containers : String
  notification_level : String
  max_retries : Nat
  retry_delay : Nat
deriving DecidableEq, Repr

/-- Python's `s.split(sep)` for a one-character separator, on character
lists: `"".split(',') = [""]`, `"a,b".split(',') = ["a","b"]`. -/
def pySplit (sep : Char) : List Char → List (List Char)
  | [] => [[]]
  | c :: rest =>
    if c = sep then [] :: pySplit sep rest
    else
      match pySplit sep rest with
      | [] => [[c]]
      | g :: gs => (c :: g) :: gs

/-- String-level wrapper for `pySplit`. -/
def pySplitStr (sep : Char) (s : String) : List String :=
  (pySplit sep s.data).map String.mk

/-- The retry loop of `send_discord_embed` (main.py lines 90–106), from
attempt index `attempt` with `remaining` iterations of
`for attempt in range(self.max_retries)` left.  Per iteration: a response
with status 204 returns `True` immediately; any other status code only logs
a warning and falls through to the next iteration; a transport error sleeps
`retry_delay` seconds when `attempt < max_retries - 1` and continues.  The
second component records the sleep durations performed, in order. -/
def sendFrom (max_retries retry_delay : Nat) (oracle : Nat → AttemptOutcome) :
    Nat → Nat → Bool × List Nat
  | _, 0 => (false, [])
  | attempt, remaining + 1 =>
    match oracle attempt with
    | AttemptOutcome.response code =>
      if code = 204 then (true, [])
      else sendFrom max_retries retry_delay oracle (attempt + 1) remaining
    | AttemptOutcome.transportError =>
      let rest := sendFrom max_retries retry_delay oracle (attempt + 1) remaining
      if attempt < max_retries - 1 then (rest.1, retry_delay :: rest.2)
      else rest

/-- `DockerMonitor.send_discord_embed` (main.py lines 77–106): runs the retry
loop over the webhook behaviour `oracle` (the outcome of the `requests.post`
at each attempt index) and returns the boolean result paired with the list of
backoff sleeps performed.  The function body never raises for any modelled
webhook behaviour: it is total, and the boolean is the sole failure signal. -/
def send_discord_embed (cfg : DockerMonitorConfig)
    (oracle : Nat → AttemptOutcome) : Bool × List Nat :=
  sendFrom cfg.max_retries cfg.retry_delay oracle 0 cfg.max_retries

/-- Outcome of `self.client.containers.get(container_id)`: a successful
lookup of container data, a `docker.errors.NotFound`, or any other
exception. -/
inductive LookupResult (α : Type) : Type
  | ok (a : α)
  | notFound
  | otherError
deriving DecidableEq, Repr

/-- The container data read by `get_container_status` on a successful
lookup: `image.tags`, `status`, the nested
`attrs['State']['Health']['Status']` (absent at any level ↦ `none`),
`attrs['Created']`, and the optional `attrs['Platform']`. -/
structure ContainerInfo : Type where
  tags : List String
  status : String
  health : Option String
  created : String
  platform : Option String
deriving DecidableEq, Repr

/-- The dictionary returned by `get_container_status`. -/
structure ContainerStatus : Type where
  image : String
  status : String
  health : String
  created : String
  platform : String
deriving DecidableEq, Repr

/-- The all-"unknown" sentinel status (main.py line 121). -/
def unknownStatus : ContainerStatus :=
  ⟨"unknown", "unknown", "unknown", "unknown", "unknown"⟩

/-- The all-"error" sentinel status (main.py line 124). -/
def errorStatus : ContainerStatus :=
  ⟨"error", "error", "error", "error", "error"⟩

/-- `container.attrs['Created'][:19].replace('T', ' ')` (main.py line 116):
truncate to the first 19 characters, then replace every `'T'` by a space. -/
def formatCreated (s : String) : String :=
  String.mk ((s.data.take 19).map (fun ch => if ch = 'T' then ' ' else ch))

/-- `DockerMonitor.get_container_status` (main.py lines 108–124): on success
extracts image / status / health / created / platform with the source's
defaults; `docker.errors.NotFound` yields the all-"unknown" dictionary; any
other exception yields the all-"error" dictionary.  Total: never raises. -/
def get_container_status (lookup : LookupResult ContainerInfo) :
    ContainerStatus :=
  match lookup with
  | LookupResult.ok c =>
    { image := match c.tags with
        | [] => "untagged"
        | t :: _ => t
      status := c.status
      health := c.health.getD "N/A"
      created := formatCreated c.created
      platform := c.platform.getD "N/A" }
  | LookupResult.notFound => unknownStatus
  | LookupResult.otherError => errorStatus

/-- Substitute every occurrence of the six-character pattern `"\x7bname\x7d"`
by `name`, modelling Python's `str.format(name=...)` on the templates used
here (each template mentions only the `name` placeholder). -/
def substName (name : String) : List Char → List Char
  | [] => []
  | a :: b :: c :: d :: e :: f :: rest =>
    if [a, b, c, d, e, f] = "\x7bname\x7d".data
    then name.data ++ substName name rest
    else a :: substName name (b :: c :: d :: e :: f :: rest)
  | c :: rest => c :: substName name rest

/-- `template.format(name=container_name)` for the event templates. -/
def pyFormatName (template name : String) : String :=
  String.mk (substName name template.data)

/-- The `EventConfig` dataclass (main.py lines 16–20). -/
structure EventConfig : Type where
  title : String
  description : String
  color : Nat
deriving DecidableEq, Repr

/-- The `self.event_configs` dictionary (main.py lines 49–75), as a lookup
returning `none` for actions outside the five configured keys. -/
def event_configs (action : String) : Option EventConfig :=
  if action = "start" then
    some ⟨"🟢 Container Started: \x7bname\x7d",
      "Container \x7bname\x7d has started successfully.", 0x00FF00⟩
  else if action = "die" then
    some ⟨"🔴 Container Stopped: \x7bname\x7d",
      "Container \x7bname\x7d has stopped.", 0xFF0000⟩
  else if action = "pause" then
    some ⟨"⏸️ Container Paused: \x7bname\x7d",
      "Container \x7bname\x7d has been paused.", 0xFFA500⟩
  else if action = "unpause" then
    some ⟨"▶️ Container Unpaused: \x7bname\x7d",
      "Container \x7bname\x7d has been unpaused.", 0x00FF00⟩
  else if action = "health_status" then
    some ⟨"🏥 Health Status: \x7bname\x7d",
      "Health status changed for container \x7bname\x7d.", 0x0000FF⟩
  else none

/-- The skip condition of main.py line 140: the event is skipped when
`monitored_containers != '*'` and the container name is not in the
comma-split allow-list. -/
def containerSkipped (monitored_containers container_name : String) : Prop :=
  monitored_containers ≠ "*" ∧
    container_name ∉ pySplitStr ',' monitored_containers

instance (m n : String) : Decidable (containerSkipped m n) := by
  unfold containerSkipped; infer_instance

/-- The skip condition of main.py line 144: the event is skipped when
`notification_level != 'all'` and the action is not in the comma-split
allow-list. -/
def actionSkipped (notification_level action : String) : Prop :=
  notification_level ≠ "all" ∧ action ∉ pySplitStr ',' notification_level

instance (l a : String) : Decidable (actionSkipped l a) := by
  unfold actionSkipped; infer_instance

/-- A container name passes the container allow-list: the negation of the
skip condition on main.py line 140. -/
def containerAccepted (monitored_containers container_name : String) : Prop :=
  ¬ containerSkipped monitored_containers container_name

/-- An action passes the action allow-list: the negation of the skip
condition on main.py line 144. -/
def actionAccepted (notification_level action : String) : Prop :=
  ¬ actionSkipped notification_level action

instance (m n : String) : Decidable (containerAccepted m n) := by
  unfold containerAccepted; infer_instance

instance (l a : String) : Decidable (actionAccepted l a) := by
  unfold actionAccepted; infer_instance

/-- The `Actor.Attributes` dictionary of a Docker event, restricted to the
keys the code reads: `name` and `exitCode` (each possibly absent). -/
structure ActorAttributes : Type where
  name : Option String
  exitCode : Option String
deriving DecidableEq, Repr

/-- The `Actor` object of a Docker event; its `Attributes` key may be
absent (a hard `['Attributes']` lookup in the code). -/
structure EventActor : Type where
  attributes : Option ActorAttributes
deriving DecidableEq, Repr

/-- A decoded Docker event as a partial dictionary over the keys the loop
reads: `Type`, `Actor`, `Action`, `id`.  `none` models an absent key, whose
hard `event[...]` lookup raises `KeyError`. -/
structure PyEvent : Type where
  eventType : Option String
  actor : Option EventActor
  action : Option String
  id : Option String
deriving DecidableEq, Repr

/-- One entry of the Discord embed `fields` list:
`{"name": ..., "value": ..., "inline": ...}`. -/
structure EmbedField : Type where
  name : String
  value : String
  inline : Bool
deriving DecidableEq, Repr

/-- The embed handed to `send_discord_embed`: title, description, color and
the ordered field list built in `monitor_events`. -/
structure Embed : Type where
  title : String
  description : String
  color : Nat
  fields : List EmbedField
deriving DecidableEq, Repr

/-- What the loop body does with one event: skipped because its `Type` is
not `"container"`; skipped by an allow-list filter; skipped because its
action has no template; or sent (with the subject name, action, the embed
passed to the delivery client, and the delivery client's boolean result). -/
inductive EventResult : Type
  | skippedType
  | filtered
  | ignoredAction
  | sent (name action : String) (embed : Embed) (delivered : Bool)
deriving DecidableEq, Repr

/-- The body of the `for event in self.client.events(...)` loop (main.py
lines 132–175) for one event.  Dictionary accesses follow the source order:
`event['Type']`, `event['Actor']['Attributes']` (with `.get('name',
'unknown')`), `event['Action']`, the two allow-list checks, the template
check, and only then `event['id']`.  A missing hard key yields
`Except.error` carrying that key, modelling the escaping `KeyError`. -/
def processEvent (cfg : DockerMonitorConfig)
    (lookup : LookupResult ContainerInfo) (oracle : Nat → AttemptOutcome)
    (now : Nat) (event : PyEvent) : Except String EventResult :=
  match event.eventType with
  | none => Except.error "Type"
  | some ty =>
    if ty ≠ "container" then Except.ok EventResult.skippedType
    else
      match event.actor with
      | none => Except.error "Actor"
      | some actor =>
        match actor.attributes with
        | none => Except.error "Attributes"
        | some attrs =>
          let container_name := attrs.name.getD "unknown"
          match event.action with
          | none => Except.error "Action"
          | some action =>
            if containerSkipped cfg.monitored_containers container_name then
              Except.ok EventResult.filtered
            else if actionSkipped cfg.notification_level action then
              Except.ok EventResult.filtered
            else
              match event_configs action with
              | none => Except.ok EventResult.ignoredAction
              | some event_config =>
                match event.id with
                | none => Except.error "id"
                | some _ =>
                  let status := get_container_status lookup
                  let fields : List EmbedField :=
                    [⟨"Event", action, true⟩,
                     ⟨"Image", status.image, true⟩,
                     ⟨"Status", status.status, true⟩,
                     ⟨"Health", status.health, true⟩,
                     ⟨"Platform", status.platform, true⟩,
                     ⟨"Timestamp", "<t:" ++ toString now ++ ":F>", false⟩]
                  let fields :=
                    if action = "die" then
                      fields ++ [⟨"Exit Code", attrs.exitCode.getD "Unknown",
                        false⟩]
                    else fields
                  let delivered := (send_discord_embed cfg oracle).1
                  Except.ok (EventResult.sent container_name action
                    ⟨pyFormatName event_config.title container_name,
                     pyFormatName event_config.description container_name,
                     event_config.color, fields⟩ delivered)

/-- The external behaviours the loop observes while processing the `k`-th
event: the container lookup outcome, the webhook's per-attempt outcomes, and
the wall clock read for the timestamp field. -/
structure RuntimeEnv : Type where
  lookup : Nat → LookupResult ContainerInfo
  oracle : Nat → Nat → AttemptOutcome
  now : Nat → Nat

/-- The event loop of `monitor_events` over a finite prefix of the event
stream, starting at event index `k`.  An `Except.error` from the body is the
`KeyError` escaping the per-event handling: the outer `except Exception`
(main.py lines 179–181) logs it as fatal and re-raises, terminating the
loop, which the error result models.  Any `Except.ok` body result — a
delivery failure included — lets the loop continue with the next event. -/
def runEvents (cfg : DockerMonitorConfig) (env : RuntimeEnv) :
    Nat → List PyEvent → Except String (List EventResult)
  | _, [] => Except.ok []
  | k, e :: rest =>
    match processEvent cfg (env.lookup k) (env.oracle k) (env.now k) e with
    | Except.error key => Except.error key
    | Except.ok r =>
      match runEvents cfg env (k + 1) rest with
      | Except.error key => Except.error key
      | Except.ok rs => Except.ok (r :: rs)

/-- The error log emitted for one event result (main.py line 175): a failed
delivery logs an error naming the container and action; nothing else in the
per-event path logs an error about delivery. -/
def eventLog : EventResult → List String
  | EventResult.sent n a _ false =>
    ["Failed to send notification for " ++ n ++ " " ++ a]
  | _ => []

/-! ### Concrete inputs used by counterexamples and witnesses -/

/-- A webhook behaviour answering 500 on the first two attempts and 204 from
the third on. -/
def oracle500 : Nat → AttemptOutcome :=
  fun i => if i < 2 then AttemptOutcome.response 500
    else AttemptOutcome.response 204

/-- A webhook behaviour failing every attempt with a transport error. -/
def allTransport : Nat → AttemptOutcome :=
  fun _ => AttemptOutcome.transportError

/-- A webhook behaviour acknowledging every attempt with 204. -/
def oracle204 : Nat → AttemptOutcome :=
  fun _ => AttemptOutcome.response 204

/-- A configuration with both allow-lists wild and the default retry
settings (`MAX_RETRIES=3`, `RETRY_DELAY=5`). -/
def defaultCfg : DockerMonitorConfig := ⟨"*", "all", 3, 5⟩

/-! ### Helper lemmas about the retry loop -/

/-- Shift an existential over attempt indices across one executed attempt
that did not succeed. -/
theorem exists_shift_one (P : Nat → Prop) (a n : Nat) (h : ¬ P a) :
    (∃ i, i < n ∧ P (a + 1 + i)) ↔ ∃ i, i < n + 1 ∧ P (a + i) := by
  constructor
  · rintro ⟨i, hi, hp⟩
    exact ⟨i + 1, by omega, by rwa [show a + (i + 1) = a + 1 + i by omega]⟩
  · rintro ⟨i, hi, hp⟩
    cases i with
    | zero => exact absurd (by simpa using hp) h
    | succ j =>
      exact ⟨j, by omega, by rwa [show a + 1 + j = a + (j + 1) by omega]⟩

/-- The retry loop succeeds iff one of the attempts it may execute receives
status 204. -/
theorem sendFrom_fst_true_iff (m d : Nat) (o : Nat → AttemptOutcome) :
    ∀ r a, (sendFrom m d o a r).1 = true ↔
      ∃ i, i < r ∧ o (a + i) = AttemptOutcome.response 204 := by
  intro r
  induction r with
  | zero => intro a; simp [sendFrom]
  | succ n ih =>
    intro a
    have hna : ¬ (o a = AttemptOutcome.response 204) ∨
        o a = AttemptOutcome.response 204 := (em _).symm
    rcases ho : o a with code | _
    · by_cases hc : code = 204
      · subst hc
        simp only [sendFrom, ho, if_pos rfl]
        exact ⟨fun _ => ⟨0, by omega, by simpa using ho⟩, fun _ => rfl⟩
      · have hne : ¬ (o a = AttemptOutcome.response 204) := by
          rw [ho]; intro hcontra
          exact hc (by injection hcontra)
        simp only [sendFrom, ho, if_neg hc]
        rw [ih (a + 1)]
        exact exists_shift_one (fun i => o i = AttemptOutcome.response 204) a n hne
    · have hne : ¬ (o a = AttemptOutcome.response 204) := by
        rw [ho]; intro hcontra; cases hcontra
      have hrec : (sendFrom m d o (a + 1) n).1 = true ↔
          ∃ i, i < n ∧ o (a + 1 + i) = AttemptOutcome.response 204 := ih (a + 1)
      have hfst : (sendFrom m d o a (n + 1)).1 = (sendFrom m d o (a + 1) n).1 := by
        simp only [sendFrom, ho]
        split <;> rfl
      rw [hfst, hrec]
      exact exists_shift_one (fun i => o i = AttemptOutcome.response 204) a n hne

/-- When every remaining attempt fails with a transport error, the loop
returns `false` and sleeps once per non-final attempt. -/
theorem sendFrom_allTransport (m d : Nat) (o : Nat → AttemptOutcome) :
    ∀ r a, a + r = m →
      (∀ i, a ≤ i → i < m → o i = AttemptOutcome.transportError) →
      sendFrom m d o a r = (false, List.replicate (r - 1) d) := by
  intro r
  induction r with
  | zero => intro a _ _; simp [sendFrom]
  | succ n ih =>
    intro a hsum hall
    have ha : o a = AttemptOutcome.transportError :=
      hall a (Nat.le_refl a) (by omega)
    have hrec : sendFrom m d o (a + 1) n = (false, List.replicate (n - 1) d) :=
      ih (a + 1) (by omega) (fun i h1 h2 => hall i (by omega) h2)
    simp only [sendFrom, ha, hrec]
    by_cases hlt : a < m - 1
    · have hrep : List.replicate (n + 1 - 1) d = d :: List.replicate (n - 1) d := by
        have h1 : n + 1 - 1 = (n - 1) + 1 := by omega
        rw [h1, List.replicate_succ]
      rw [if_pos hlt, hrep]
    · rw [if_neg hlt]
      have hn : n = 0 := by omega
      subst hn
      rfl

/-- When no executed attempt fails with a transport error, the loop never
sleeps. -/
theorem sendFrom_no_transport (m d : Nat) (o : Nat → AttemptOutcome) :
    ∀ r a, (∀ i, a ≤ i → i < a + r → o i ≠ AttemptOutcome.transportError) →
      (sendFrom m d o a r).2 = [] := by
  intro r
  induction r with
  | zero => intro a _; simp [sendFrom]
  | succ n ih =>
    intro a hall
    rcases ho : o a with code | _
    · by_cases hc : code = 204
      · subst hc; simp [sendFrom, ho]
      · simp only [sendFrom, ho, if_neg hc]
        exact ih (a + 1) (fun i h1 h2 => hall i (by omega) (by omega))
    · exact absurd ho (hall a (Nat.le_refl a) (by omega))

/-- Claim C1: for every configuration and webhook behaviour,
`send_discord_embed` returns `true` iff some attempt with index below
`max_retries` receives HTTP 204, and returns `false` iff every attempt in
the budget fails (a non-204 response or a transport error).  The function is
total — the boolean is the sole failure signal, no exception escapes for any
modelled webhook behaviour. -/
theorem C1_deliver_true_iff_204 (cfg : DockerMonitorConfig)
    (oracle : Nat → AttemptOutcome) :
    ((send_discord_embed cfg oracle).1 = true ↔
      ∃ i, i < cfg.max_retries ∧ oracle i = AttemptOutcome.response 204)
    ∧ ((send_discord_embed cfg oracle).1 = false ↔
      ∀ i, i < cfg.max_retries → oracle i ≠ AttemptOutcome.response 204) := by
  have h := sendFrom_fst_true_iff cfg.max_retries cfg.retry_delay oracle
    cfg.max_retries 0
  have h0 : (send_discord_embed cfg oracle).1 = true ↔
      ∃ i, i < cfg.max_retries ∧ oracle i = AttemptOutcome.response 204 := by
    rw [send_discord_embed, h]
    simp
  refine ⟨h0, ?_⟩
  constructor
  · intro hf i hi hp
    have : (send_discord_embed cfg oracle).1 = true := h0.mpr ⟨i, hi, hp⟩
    rw [hf] at this
    cases this
  · intro hall
    cases hb : (send_discord_embed cfg oracle).1 with
    | false => rfl
    | true =>
      obtain ⟨i, hi, hp⟩ := h0.mp hb
      exact absurd hp (hall i hi)

/-- Witness for C1 at a concrete input: with the default budget of 3 and a
sink answering 500, 500 then 204, delivery reports success. -/
theorem C1_deliver_true_iff_204_witness :
    (send_discord_embed defaultCfg oracle500).1 = true :=
  (C1_deliver_true_iff_204 defaultCfg oracle500).1.mpr
    ⟨2, by decide, by decide⟩

/-- Counterexample to claim C2: with `maxRetries = 3` and the sink answering
500 on the first two attempts and 204 on the third, `send_discord_embed`
returns `true` after zero backoff sleeps, not two — a non-204 response does
not trigger a sleep (the `time.sleep` sits only in the `except` branch for
transport errors, main.py lines 101–105). -/
theorem C2_counterexample :
    send_discord_embed defaultCfg oracle500 = (true, []) ∧
      (send_discord_embed defaultCfg oracle500).2.length ≠ 2 := by
  constructor
  · rfl
  · decide

/-- Claim C2 (amended): the client sleeps `retryDelay` seconds only after a
transport-error attempt that is not the final attempt; a non-204 response
triggers no sleep.  Hence when all attempts fail with transport errors the
client sleeps exactly `maxRetries - 1` times, when no attempt has a
transport error it never sleeps, and in the 500/500/204 scenario with
`maxRetries = 3` it returns `true` after zero sleeps. -/
theorem C2_sleeps_only_on_transport :
    (∀ (cfg : DockerMonitorConfig) (oracle : Nat → AttemptOutcome),
      (∀ i, i < cfg.max_retries → oracle i = AttemptOutcome.transportError) →
      send_discord_embed cfg oracle =
        (false, List.replicate (cfg.max_retries - 1) cfg.retry_delay))
    ∧ (∀ (cfg : DockerMonitorConfig) (oracle : Nat → AttemptOutcome),
      (∀ i, i < cfg.max_retries → oracle i ≠ AttemptOutcome.transportError) →
      (send_discord_embed cfg oracle).2 = [])
    ∧ send_discord_embed defaultCfg oracle500 = (true, []) := by
  refine ⟨?_, ?_, rfl⟩
  · intro cfg oracle hall
    have h := sendFrom_allTransport cfg.max_retries cfg.retry_delay oracle
      cfg.max_retries 0 (by omega) (fun i _ h2 => hall i h2)
    simpa [send_discord_embed] using h
  · intro cfg oracle hall
    have h := sendFrom_no_transport cfg.max_retries cfg.retry_delay oracle
      cfg.max_retries 0 (fun i _ h2 => hall i (by omega))
    simpa [send_discord_embed] using h

/-- Witness for the amended C2 at concrete inputs: three transport errors
give `false` with two sleeps of 5 seconds; three 204 responses give no
sleeps. -/
theorem C2_sleeps_only_on_transport_witness :
    send_discord_embed defaultCfg allTransport = (false, [5, 5]) ∧
      (send_discord_embed defaultCfg oracle204).2 = [] :=
  ⟨C2_sleeps_only_on_transport.1 defaultCfg allTransport (fun _ _ => rfl),
   C2_sleeps_only_on_transport.2.1 defaultCfg oracle204
     (fun _ _ h => by cases h)⟩

/-- Counterexample to claim C3: setting the action allow-list to the
wildcard string `"*"` does not accept the action `"start"` — the code's
wildcard for the action list is the string `"all"` (main.py line 144), so
`"*"` is treated as an ordinary one-element list. -/
theorem C3_counterexample : ¬ actionAccepted "*" "start" := by
  intro h
  exact h (by decide)

/-- Claim C3 (amended): the container allow-list wildcard `"*"` accepts
every container name and the action allow-list wildcard `"all"` accepts
every action; any other allow-list value accepts a name or action iff it is
an exact member of its comma-separated split. -/
theorem C3_allowlists :
    (∀ name, containerAccepted "*" name)
    ∧ (∀ act, actionAccepted "all" act)
    ∧ (∀ m name, m ≠ "*" →
        (containerAccepted m name ↔ name ∈ pySplitStr ',' m))
    ∧ (∀ l act, l ≠ "all" →
        (actionAccepted l act ↔ act ∈ pySplitStr ',' l)) := by
  refine ⟨?_, ?_, ?_, ?_⟩
  · intro name h
    exact h.1 rfl
  · intro act h
    exact h.1 rfl
  · intro m name hm
    unfold containerAccepted containerSkipped
    constructor
    · intro h
      by_contra hmem
      exact h ⟨hm, hmem⟩
    · intro hmem h
      exact h.2 hmem
  · intro l act hl
    unfold actionAccepted actionSkipped
    constructor
    · intro h
      by_contra hmem
      exact h ⟨hl, hmem⟩
    · intro hmem h
      exact h.2 hmem

/-- Witness for the amended C3 at concrete inputs. -/
theorem C3_allowlists_witness :
    containerAccepted "*" "cache" ∧ actionAccepted "all" "die" ∧
      (containerAccepted "web,db" "web" ↔ "web" ∈ pySplitStr ',' "web,db") ∧
      (actionAccepted "start,die" "stop" ↔
        "stop" ∈ pySplitStr ',' "start,die") :=
  ⟨C3_allowlists.1 "cache", C3_allowlists.2.1 "die",
   C3_allowlists.2.2.1 "web,db" "web" (by decide),
   C3_allowlists.2.2.2 "start,die" "stop" (by decide)⟩

/-- Claim C4: the enricher never raises — it is a total function of the
lookup outcome.  A "not found" failure yields the status whose five fields
are all `"unknown"`, any other failure yields the status whose five fields
are all `"error"`, and the two sentinels are distinct. -/
theorem C4_enricher_sentinels :
    get_container_status LookupResult.notFound =
      ⟨"unknown", "unknown", "unknown", "unknown", "unknown"⟩
    ∧ get_container_status LookupResult.otherError =
      ⟨"error", "error", "error", "error", "error"⟩
    ∧ get_container_status LookupResult.notFound ≠
        get_container_status LookupResult.otherError :=
  ⟨rfl, rfl, by decide⟩

/-- Claim C8: on a successful lookup the enricher returns the first image
tag when any exist and `"untagged"` otherwise, the lifecycle status as
reported, the health defaulting to `"N/A"`, the creation time truncated to
its first 19 characters with every `'T'` replaced by a space, and the
platform defaulting to `"N/A"`. -/
theorem C8_enricher_success (c : ContainerInfo) :
    (get_container_status (LookupResult.ok c)).image = c.tags.headD "untagged"
    ∧ (get_container_status (LookupResult.ok c)).status = c.status
    ∧ (get_container_status (LookupResult.ok c)).health = c.health.getD "N/A"
    ∧ (get_container_status (LookupResult.ok c)).created.data
        = (c.created.data.take 19).map (fun ch => if ch = 'T' then ' ' else ch)
    ∧ (get_container_status (LookupResult.ok c)).platform
        = c.platform.getD "N/A" := by
  refine ⟨?_, rfl, rfl, rfl, rfl⟩
  rcases c with ⟨tags, status, health, created, platform⟩
  cases tags <;> rfl

/-- Witness for C8 at the spec's scenario input: image `["web:latest"]`,
status `"running"`, no health check, ISO creation time, platform
`"linux"`. -/
theorem C8_enricher_success_witness :
    (get_container_status (LookupResult.ok
      ⟨["web:latest"], "running", none, "2024-01-01T12:00:00.000Z",
        some "linux"⟩)).image = "web:latest"
    ∧ (get_container_status (LookupResult.ok
      ⟨["web:latest"], "running", none, "2024-01-01T12:00:00.000Z",
        some "linux"⟩)).health = "N/A" := by
  have h := C8_enricher_success
    ⟨["web:latest"], "running", none, "2024-01-01T12:00:00.000Z",
      some "linux"⟩
  exact ⟨h.1, h.2.2.1⟩

/-! ### Evaluation lemmas for the loop body -/

/-- A constant runtime environment for concrete loop runs. -/
def constEnv : RuntimeEnv :=
  ⟨fun _ => LookupResult.notFound, fun _ => allTransport, fun _ => 0⟩

/-- An event whose `Type` is not `"container"` is skipped at once. -/
theorem processEvent_skipType (cfg : DockerMonitorConfig)
    (lookup : LookupResult ContainerInfo) (oracle : Nat → AttemptOutcome)
    (now : Nat) (e : PyEvent) (ty : String)
    (hty : e.eventType = some ty) (hne : ty ≠ "container") :
    processEvent cfg lookup oracle now e = Except.ok EventResult.skippedType := by
  rcases e with ⟨ety, actor, action, oid⟩
  simp only [PyEvent.eventType] at hty
  subst hty
  simp only [processEvent, if_pos hne]

/-- A container event missing the `Actor` key raises `KeyError('Actor')`. -/
theorem processEvent_error_actor (cfg : DockerMonitorConfig)
    (lookup : LookupResult ContainerInfo) (oracle : Nat → AttemptOutcome)
    (now : Nat) (e : PyEvent)
    (hty : e.eventType = some "container") (ha : e.actor = none) :
    processEvent cfg lookup oracle now e = Except.error "Actor" := by
  rcases e with ⟨ety, actor, action, oid⟩
  simp only [PyEvent.eventType] at hty
  simp only [PyEvent.actor] at ha
  subst hty
  subst ha
  simp only [processEvent]
  rw [if_neg (fun h => h rfl)]

/-- A container event with actor attributes but no `Action` key raises
`KeyError('Action')`. -/
theorem processEvent_error_action (cfg : DockerMonitorConfig)
    (lookup : LookupResult ContainerInfo) (oracle : Nat → AttemptOutcome)
    (now : Nat) (attrs : ActorAttributes) (oid : Option String) :
    processEvent cfg lookup oracle now
        ⟨some "container", some ⟨some attrs⟩, none, oid⟩
      = Except.error "Action" := by
  simp only [processEvent]
  rw [if_neg (fun h => h rfl)]

/-- A container event rejected by the container allow-list is filtered. -/
theorem processEvent_filtered_container (cfg : DockerMonitorConfig)
    (lookup : LookupResult ContainerInfo) (oracle : Nat → AttemptOutcome)
    (now : Nat) (attrs : ActorAttributes) (act : String) (oid : Option String)
    (h : containerSkipped cfg.monitored_containers (attrs.name.getD "unknown")) :
    processEvent cfg lookup oracle now
        ⟨some "container", some ⟨some attrs⟩, some act, oid⟩
      = Except.ok EventResult.filtered := by
  simp only [processEvent, if_pos h]
  rw [if_neg (fun h => h rfl)]

/-- A container event passing the container allow-list but rejected by the
action allow-list is filtered. -/
theorem processEvent_filtered_action (cfg : DockerMonitorConfig)
    (lookup : LookupResult ContainerInfo) (oracle : Nat → AttemptOutcome)
    (now : Nat) (attrs : ActorAttributes) (act : String) (oid : Option String)
    (h1 : ¬ containerSkipped cfg.monitored_containers (attrs.name.getD "unknown"))
    (h2 : actionSkipped cfg.notification_level act) :
    processEvent cfg lookup oracle now
        ⟨some "container", some ⟨some attrs⟩, some act, oid⟩
      = Except.ok EventResult.filtered := by
  simp only [processEvent, if_neg h1, if_pos h2]
  rw [if_neg (fun h => h rfl)]

/-- An accepted container event whose action has no template is silently
ignored. -/
theorem processEvent_ignoredAction_eval (cfg : DockerMonitorConfig)
    (lookup : LookupResult ContainerInfo) (oracle : Nat → AttemptOutcome)
    (now : Nat) (attrs : ActorAttributes) (act : String) (oid : Option String)
    (h1 : ¬ containerSkipped cfg.monitored_containers (attrs.name.getD "unknown"))
    (h2 : ¬ actionSkipped cfg.notification_level act)
    (hec : event_configs act = none) :
    processEvent cfg lookup oracle now
        ⟨some "container", some ⟨some attrs⟩, some act, oid⟩
      = Except.ok EventResult.ignoredAction := by
  simp only [processEvent, if_neg h1, if_neg h2, hec]
  rw [if_neg (fun h => h rfl)]

/-- An accepted container event with a template but no `id` key raises
`KeyError('id')`. -/
theorem processEvent_error_id (cfg : DockerMonitorConfig)
    (lookup : LookupResult ContainerInfo) (oracle : Nat → AttemptOutcome)
    (now : Nat) (attrs : ActorAttributes) (act : String) (ec : EventConfig)
    (h1 : ¬ containerSkipped cfg.monitored_containers (attrs.name.getD "unknown"))
    (h2 : ¬ actionSkipped cfg.notification_level act)
    (hec : event_configs act = some ec) :
    processEvent cfg lookup oracle now
        ⟨some "container", some ⟨some attrs⟩, some act, none⟩
      = Except.error "id" := by
  simp only [processEvent, if_neg h1, if_neg h2, hec]
  rw [if_neg (fun h => h rfl)]

/-- An accepted container event with a template and an `id` is formatted and
handed to the delivery client; the full result. -/
theorem processEvent_sent_eval (cfg : DockerMonitorConfig)
    (lookup : LookupResult ContainerInfo) (oracle : Nat → AttemptOutcome)
    (now : Nat) (attrs : ActorAttributes) (act cid : String) (ec : EventConfig)
    (h1 : ¬ containerSkipped cfg.monitored_containers (attrs.name.getD "unknown"))
    (h2 : ¬ actionSkipped cfg.notification_level act)
    (hec : event_configs act = some ec) :
    processEvent cfg lookup oracle now
        ⟨some "container", some ⟨some attrs⟩, some act, some cid⟩
      = Except.ok (EventResult.sent (attrs.name.getD "unknown") act
          ⟨pyFormatName ec.title (attrs.name.getD "unknown"),
           pyFormatName ec.description (attrs.name.getD "unknown"),
           ec.color,
           [⟨"Event", act, true⟩,
            ⟨"Image", (get_container_status lookup).image, true⟩,
            ⟨"Status", (get_container_status lookup).status, true⟩,
            ⟨"Health", (get_container_status lookup).health, true⟩,
            ⟨"Platform", (get_container_status lookup).platform, true⟩,
            ⟨"Timestamp", "<t:" ++ toString now ++ ":F>", false⟩]
           ++ (if act = "die"
               then [⟨"Exit Code", attrs.exitCode.getD "Unknown", false⟩]
               else [])⟩
          (send_discord_embed cfg oracle).1) := by
  simp only [processEvent, if_neg h1, if_neg h2, hec]
  rw [if_neg (show ¬("container" : String) ≠ "container" from fun h => h rfl)]
  by_cases hd : act = "die" <;> simp [hd]

/-- A loop-body result that is not an error lets the loop continue with the
next event, whatever the result was. -/
theorem runEvents_cons_ok (cfg : DockerMonitorConfig) (env : RuntimeEnv)
    (k : Nat) (e : PyEvent) (rest : List PyEvent) (r : EventResult)
    (h : processEvent cfg (env.lookup k) (env.oracle k) (env.now k) e
      = Except.ok r) :
    runEvents cfg env k (e :: rest)
      = (runEvents cfg env (k + 1) rest).map (fun rs => r :: rs) := by
  simp only [runEvents, h]
  cases runEvents cfg env (k + 1) rest <;> rfl

/-- A loop-body error terminates the loop with that error. -/
theorem runEvents_cons_error (cfg : DockerMonitorConfig) (env : RuntimeEnv)
    (k : Nat) (e : PyEvent) (rest : List PyEvent) (key : String)
    (h : processEvent cfg (env.lookup k) (env.oracle k) (env.now k) e
      = Except.error key) :
    runEvents cfg env k (e :: rest) = Except.error key := by
  simp only [runEvents, h]

/-- Actions outside the five configured keys have no template. -/
theorem event_configs_eq_none (act : String)
    (h : act ∉ ["start", "die", "pause", "unpause", "health_status"]) :
    event_configs act = none := by
  simp only [List.mem_cons, List.not_mem_nil, or_false, not_or] at h
  obtain ⟨h1, h2, h3, h4, h5⟩ := h
  simp only [event_configs, if_neg h1, if_neg h2, if_neg h3, if_neg h4,
    if_neg h5]

/-- Claim C5: per received event the loop discards non-container events at
once; applies the two allow-list filters and on rejection does nothing
further; on acceptance enriches and formats, and an action without a
template yields no notification; otherwise it invokes the delivery client,
whose boolean becomes the result's `delivered` flag; a `false` delivery
produces the error log naming the subject and action, and any non-error
body result — a delivery failure included — lets the loop continue with the
remaining events. -/
theorem C5_per_event_pipeline (cfg : DockerMonitorConfig)
    (lookup : LookupResult ContainerInfo) (oracle : Nat → AttemptOutcome)
    (now : Nat) :
    (∀ e ty, e.eventType = some ty → ty ≠ "container" →
      processEvent cfg lookup oracle now e = Except.ok EventResult.skippedType)
    ∧ (∀ attrs act oid,
        ¬ (containerAccepted cfg.monitored_containers (attrs.name.getD "unknown")
            ∧ actionAccepted cfg.notification_level act) →
        processEvent cfg lookup oracle now
            ⟨some "container", some ⟨some attrs⟩, some act, oid⟩
          = Except.ok EventResult.filtered)
    ∧ (∀ attrs act oid,
        containerAccepted cfg.monitored_containers (attrs.name.getD "unknown") →
        actionAccepted cfg.notification_level act →
        event_configs act = none →
        processEvent cfg lookup oracle now
            ⟨some "container", some ⟨some attrs⟩, some act, oid⟩
          = Except.ok EventResult.ignoredAction)
    ∧ (∀ attrs act cid ec,
        containerAccepted cfg.monitored_containers (attrs.name.getD "unknown") →
        actionAccepted cfg.notification_level act →
        event_configs act = some ec →
        ∃ emb, processEvent cfg lookup oracle now
            ⟨some "container", some ⟨some attrs⟩, some act, some cid⟩
          = Except.ok (EventResult.sent (attrs.name.getD "unknown") act emb
              (send_discord_embed cfg oracle).1))
    ∧ (∀ n act emb,
        eventLog (EventResult.sent n act emb false)
          = ["Failed to send notification for " ++ n ++ " " ++ act]
        ∧ eventLog (EventResult.sent n act emb true) = [])
    ∧ (∀ (env : RuntimeEnv) (k : Nat) (e : PyEvent) (rest : List PyEvent)
        (r : EventResult),
        processEvent cfg (env.lookup k) (env.oracle k) (env.now k) e
          = Except.ok r →
        runEvents cfg env k (e :: rest)
          = (runEvents cfg env (k + 1) rest).map (fun rs => r :: rs)) := by
  refine ⟨?_, ?_, ?_, ?_, ?_, ?_⟩
  · intro e ty hty hne
    exact processEvent_skipType cfg lookup oracle now e ty hty hne
  · intro attrs act oid hrej
    by_cases h1 : containerSkipped cfg.monitored_containers
        (attrs.name.getD "unknown")
    · exact processEvent_filtered_container cfg lookup oracle now attrs act oid h1
    · by_cases h2 : actionSkipped cfg.notification_level act
      · exact processEvent_filtered_action cfg lookup oracle now attrs act oid h1 h2
      · exact absurd ⟨h1, h2⟩ hrej
  · intro attrs act oid h1 h2 hec
    exact processEvent_ignoredAction_eval cfg lookup oracle now attrs act oid h1 h2 hec
  · intro attrs act cid ec h1 h2 hec
    exact ⟨_, processEvent_sent_eval cfg lookup oracle now attrs act cid ec h1 h2 hec⟩
  · intro n act emb
    exact ⟨rfl, rfl⟩
  · intro env k e rest r h
    exact runEvents_cons_ok cfg env k e rest r h

/-- The loop-body result of the start event used in the C5 witness. -/
def startResult : EventResult :=
  EventResult.sent "web" "start"
    ⟨"🟢 Container Started: web",
     "Container web has started successfully.", 0x00FF00,
     [⟨"Event", "start", true⟩, ⟨"Image", "unknown", true⟩,
      ⟨"Status", "unknown", true⟩, ⟨"Health", "unknown", true⟩,
      ⟨"Platform", "unknown", true⟩, ⟨"Timestamp", "<t:0:F>", false⟩]⟩
    false

/-- Witness for C5 at concrete inputs: a network event is skipped, and a
start event whose delivery fails (all transport errors) still lets the loop
finish the remaining (empty) stream. -/
theorem C5_per_event_pipeline_witness :
    processEvent defaultCfg LookupResult.notFound allTransport 0
        ⟨some "network", some ⟨some ⟨some "web", none⟩⟩, some "start",
          some "abc"⟩
      = Except.ok EventResult.skippedType
    ∧ runEvents defaultCfg constEnv 0
        [⟨some "container", some ⟨some ⟨some "web", none⟩⟩, some "start",
          some "abc"⟩]
      = (runEvents defaultCfg constEnv 1 []).map (fun rs => startResult :: rs) := by
  refine ⟨?_, ?_⟩
  · exact (C5_per_event_pipeline defaultCfg LookupResult.notFound allTransport
      0).1 _ "network" rfl (by decide)
  · exact (C5_per_event_pipeline defaultCfg LookupResult.notFound allTransport
      0).2.2.2.2.2 constEnv 0 _ [] startResult rfl

/-- Claim C6: an action outside the five-entry template set has no template,
and a container event carrying such an action that reaches the loop body
with its keys present is silently dropped — filtered or ignored, never sent
and never an error. -/
theorem C6_unrecognized_action_dropped :
    (∀ act, act ∉ ["start", "die", "pause", "unpause", "health_status"] →
      event_configs act = none)
    ∧ (∀ (cfg : DockerMonitorConfig) (lookup : LookupResult ContainerInfo)
        (oracle : Nat → AttemptOutcome) (now : Nat)
        (attrs : ActorAttributes) (act : String) (oid : Option String),
        act ∉ ["start", "die", "pause", "unpause", "health_status"] →
        processEvent cfg lookup oracle now
            ⟨some "container", some ⟨some attrs⟩, some act, oid⟩
          = Except.ok EventResult.filtered
        ∨ processEvent cfg lookup oracle now
            ⟨some "container", some ⟨some attrs⟩, some act, oid⟩
          = Except.ok EventResult.ignoredAction) := by
  refine ⟨event_configs_eq_none, ?_⟩
  intro cfg lookup oracle now attrs act oid hact
  by_cases h1 : containerSkipped cfg.monitored_containers
      (attrs.name.getD "unknown")
  · exact Or.inl (processEvent_filtered_container cfg lookup oracle now attrs
      act oid h1)
  · by_cases h2 : actionSkipped cfg.notification_level act
    · exact Or.inl (processEvent_filtered_action cfg lookup oracle now attrs
        act oid h1 h2)
    · exact Or.inr (processEvent_ignoredAction_eval cfg lookup oracle now attrs
        act oid h1 h2 (event_configs_eq_none act hact))

/-- Witness for C6 at the action `"create"`. -/
theorem C6_unrecognized_action_dropped_witness :
    event_configs "create" = none
    ∧ (processEvent defaultCfg LookupResult.notFound allTransport 0
          ⟨some "container", some ⟨some ⟨some "web", none⟩⟩, some "create",
            some "abc"⟩
        = Except.ok EventResult.filtered
      ∨ processEvent defaultCfg LookupResult.notFound allTransport 0
          ⟨some "container", some ⟨some ⟨some "web", none⟩⟩, some "create",
            some "abc"⟩
        = Except.ok EventResult.ignoredAction) :=
  ⟨C6_unrecognized_action_dropped.1 "create" (by decide),
   C6_unrecognized_action_dropped.2 defaultCfg LookupResult.notFound
     allTransport 0 ⟨some "web", none⟩ "create" (some "abc") (by decide)⟩

/-- Claim C7: for an accepted event with a template the embed's field list
is, in order, Event, Image, Status, Health, Platform (each inline), then the
full-width Timestamp rendered from the current send time — and exactly when
the action is `"die"` one further full-width `"Exit Code"` field is appended
last, carrying the event's `exitCode` attribute with default `"Unknown"`. -/
theorem C7_field_order (cfg : DockerMonitorConfig)
    (lookup : LookupResult ContainerInfo) (oracle : Nat → AttemptOutcome)
    (now : Nat) (attrs : ActorAttributes) (act cid : String) (ec : EventConfig)
    (h1 : containerAccepted cfg.monitored_containers (attrs.name.getD "unknown"))
    (h2 : actionAccepted cfg.notification_level act)
    (hec : event_configs act = some ec) :
    processEvent cfg lookup oracle now
        ⟨some "container", some ⟨some attrs⟩, some act, some cid⟩
      = Except.ok (EventResult.sent (attrs.name.getD "unknown") act
          ⟨pyFormatName ec.title (attrs.name.getD "unknown"),
           pyFormatName ec.description (attrs.name.getD "unknown"),
           ec.color,
           [⟨"Event", act, true⟩,
            ⟨"Image", (get_container_status lookup).image, true⟩,
            ⟨"Status", (get_container_status lookup).status, true⟩,
            ⟨"Health", (get_container_status lookup).health, true⟩,
            ⟨"Platform", (get_container_status lookup).platform, true⟩,
            ⟨"Timestamp", "<t:" ++ toString now ++ ":F>", false⟩]
           ++ (if act = "die"
               then [⟨"Exit Code", attrs.exitCode.getD "Unknown", false⟩]
               else [])⟩
          (send_discord_embed cfg oracle).1) :=
  processEvent_sent_eval cfg lookup oracle now attrs act cid ec h1 h2 hec

/-- Witness for C7 at the spec's scenario: a die event with
`exitCode = "137"` ends with the field `{name: "Exit Code", value: "137"}`. -/
theorem C7_field_order_witness :
    processEvent defaultCfg (LookupResult.ok
        ⟨["web:latest"], "exited", none, "2024-01-01T12:00:00.000Z",
          some "linux"⟩) oracle204 1700000000
      ⟨some "container", some ⟨some ⟨some "web", some "137"⟩⟩, some "die",
        some "abc"⟩
      = Except.ok (EventResult.sent "web" "die"
          ⟨pyFormatName "🔴 Container Stopped: \x7bname\x7d" "web",
           pyFormatName "Container \x7bname\x7d has stopped." "web",
           0xFF0000,
           [⟨"Event", "die", true⟩, ⟨"Image", "web:latest", true⟩,
            ⟨"Status", "exited", true⟩, ⟨"Health", "N/A", true⟩,
            ⟨"Platform", "linux", true⟩,
            ⟨"Timestamp", "<t:1700000000:F>", false⟩]
           ++ [⟨"Exit Code", "137", false⟩]⟩ true) := by
  have h := C7_field_order defaultCfg (LookupResult.ok
      ⟨["web:latest"], "exited", none, "2024-01-01T12:00:00.000Z",
        some "linux"⟩) oracle204 1700000000 ⟨some "web", some "137"⟩ "die"
      "abc" ⟨"🔴 Container Stopped: \x7bname\x7d",
        "Container \x7bname\x7d has stopped.", 0xFF0000⟩
      (by decide) (by decide) rfl
  simpa using h

/-- Counterexample to claim C9: a container event lacking the `id` key whose
action (`"create"`) has no template is processed without any error — the
`event['id']` lookup sits after the filters and the template check, so not
every container event missing `id` raises. -/
theorem C9_counterexample :
    processEvent defaultCfg LookupResult.notFound allTransport 0
        ⟨some "container", some ⟨some ⟨some "web", none⟩⟩, some "create", none⟩
      = Except.ok EventResult.ignoredAction := rfl

/-- Claim C9 (amended): a container event lacking `Actor` raises
`KeyError('Actor')`; one with actor attributes but lacking `Action` raises
`KeyError('Action')`; one lacking `id` raises `KeyError('id')` only when it
passes both allow-lists and its action has a template; and any such error
escapes the per-event handling and terminates the loop (the outer handler
logs it as fatal and re-raises). -/
theorem C9_missing_keys (cfg : DockerMonitorConfig)
    (lookup : LookupResult ContainerInfo) (oracle : Nat → AttemptOutcome)
    (now : Nat) :
    (∀ e, e.eventType = some "container" → e.actor = none →
      processEvent cfg lookup oracle now e = Except.error "Actor")
    ∧ (∀ attrs oid, processEvent cfg lookup oracle now
          ⟨some "container", some ⟨some attrs⟩, none, oid⟩
        = Except.error "Action")
    ∧ (∀ attrs act ec,
        containerAccepted cfg.monitored_containers (attrs.name.getD "unknown") →
        actionAccepted cfg.notification_level act →
        event_configs act = some ec →
        processEvent cfg lookup oracle now
            ⟨some "container", some ⟨some attrs⟩, some act, none⟩
          = Except.error "id")
    ∧ (∀ (env : RuntimeEnv) (k : Nat) (e : PyEvent) (rest : List PyEvent)
        (key : String),
        processEvent cfg (env.lookup k) (env.oracle k) (env.now k) e
          = Except.error key →
        runEvents cfg env k (e :: rest) = Except.error key) := by
  refine ⟨?_, ?_, ?_, ?_⟩
  · intro e hty ha
    exact processEvent_error_actor cfg lookup oracle now e hty ha
  · intro attrs oid
    exact processEvent_error_action cfg lookup oracle now attrs oid
  · intro attrs act ec h1 h2 hec
    exact processEvent_error_id cfg lookup oracle now attrs act ec h1 h2 hec
  · intro env k e rest key h
    exact runEvents_cons_error cfg env k e rest key h

/-- Witness for the amended C9 at concrete inputs: a container event with no
`Actor` raises and kills the loop; an accepted start event with no `id`
raises `KeyError('id')`. -/
theorem C9_missing_keys_witness :
    processEvent defaultCfg LookupResult.notFound allTransport 0
        ⟨some "container", none, some "start", some "abc"⟩
      = Except.error "Actor"
    ∧ processEvent defaultCfg LookupResult.notFound allTransport 0
        ⟨some "container", some ⟨some ⟨some "web", none⟩⟩, some "start", none⟩
      = Except.error "id"
    ∧ runEvents defaultCfg constEnv 0
        [⟨some "container", none, some "start", some "abc"⟩]
      = Except.error "Actor" := by
  refine ⟨?_, ?_, ?_⟩
  · exact (C9_missing_keys defaultCfg LookupResult.notFound allTransport 0).1
      _ rfl rfl
  · exact (C9_missing_keys defaultCfg LookupResult.notFound allTransport
      0).2.2.1 ⟨some "web", none⟩ "start" _ (by decide) (by decide) rfl
  · exact (C9_missing_keys defaultCfg LookupResult.notFound allTransport
      0).2.2.2 constEnv 0 _ [] "Actor" rfl

/-- Claim C10: when the actor attributes carry no `name`, the subject name
defaults to `"unknown"` both for filtering and for the notification text:
under a non-wildcard container allow-list not containing `"unknown"` the
event is filtered out, and whenever such an event is sent, the sent name is
`"unknown"` and the title and description interpolate `"unknown"`. -/
theorem C10_nameless_defaults (cfg : DockerMonitorConfig)
    (lookup : LookupResult ContainerInfo) (oracle : Nat → AttemptOutcome)
    (now : Nat) (attrs : ActorAttributes) (act : String) (oid : Option String)
    (hname : attrs.name = none) :
    (cfg.monitored_containers ≠ "*" →
      "unknown" ∉ pySplitStr ',' cfg.monitored_containers →
      processEvent cfg lookup oracle now
          ⟨some "container", some ⟨some attrs⟩, some act, oid⟩
        = Except.ok EventResult.filtered)
    ∧ (∀ n a emb d, processEvent cfg lookup oracle now
          ⟨some "container", some ⟨some attrs⟩, some act, oid⟩
        = Except.ok (EventResult.sent n a emb d) →
        n = "unknown" ∧ ∃ ec, event_configs a = some ec
          ∧ emb.title = pyFormatName ec.title "unknown"
          ∧ emb.description = pyFormatName ec.description "unknown") := by
  have hget : attrs.name.getD "unknown" = "unknown" := by
    rw [hname]; rfl
  constructor
  · intro hne hmem
    exact processEvent_filtered_container cfg lookup oracle now attrs act oid
      ⟨hne, by rw [hget]; exact hmem⟩
  · intro n a emb d hsent
    by_cases h1 : containerSkipped cfg.monitored_containers
        (attrs.name.getD "unknown")
    · rw [processEvent_filtered_container cfg lookup oracle now attrs act oid
        h1] at hsent
      simp at hsent
    · by_cases h2 : actionSkipped cfg.notification_level act
      · rw [processEvent_filtered_action cfg lookup oracle now attrs act oid
          h1 h2] at hsent
        simp at hsent
      · cases hec : event_configs act with
        | none =>
          rw [processEvent_ignoredAction_eval cfg lookup oracle now attrs act
            oid h1 h2 hec] at hsent
          simp at hsent
        | some ec =>
          cases oid with
          | none =>
            rw [processEvent_error_id cfg lookup oracle now attrs act ec h1 h2
              hec] at hsent
            simp at hsent
          | some cid =>
            rw [processEvent_sent_eval cfg lookup oracle now attrs act cid ec
              h1 h2 hec] at hsent
            simp only [Except.ok.injEq, EventResult.sent.injEq] at hsent
            obtain ⟨hn, ha, hemb, _⟩ := hsent
            subst ha
            refine ⟨by rw [← hn, hget], ec, hec, ?_, ?_⟩
            · rw [← hemb, hget]
            · rw [← hemb, hget]

/-- Witness for C10 at a concrete nameless event under the allow-list
`"web,db"`. -/
theorem C10_nameless_defaults_witness :
    processEvent ⟨"web,db", "all", 3, 5⟩ LookupResult.notFound allTransport 0
        ⟨some "container", some ⟨some ⟨none, none⟩⟩, some "start", some "abc"⟩
      = Except.ok EventResult.filtered :=
  (C10_nameless_defaults ⟨"web,db", "all", 3, 5⟩ LookupResult.notFound
    allTransport 0 ⟨none, none⟩ "start" (some "abc") rfl).1
    (by decide) (by decide)
